import Mathlib

/-!
Shallow embedding of the db-go connection manager (package `dbgo`).

The embedded code consists of:
  * `config.go`        — `Config`, `Config.Validate`
  * `db.go`            — `DBConn`, `getConnection`, `GetActiveConfig`,
                         `Ping`, `ResetConnection`
  * the context file    — `GetFromContext`, `SetFromContext`
  * the transaction file— `isTransaction`, `WithTransaction`, `ErrNoDatabase`
  * the tracing file    — `EnableTracing`

External collaborators (the GORM driver, the replica-resolver plugin, the
Datadog tracing plugin) are modelled as environments of results: `DriverEnv`
for connection construction, `TxEnv` for Begin/Commit/Rollback outcomes.
The process-wide mutable singleton (guarded in Go by `connMu` and
`dbConnOnce`) is modelled as an explicit `SingletonState` value threaded
through the operations; the `sync.Once` gate is the `onceDone` flag, and a
ghost counter `initCount` records how many times the once-body has executed.
Resource-level actions (Begin/Commit/Rollback) are recorded as an event
trace so that "exactly one Begin/Commit pair" style properties can be
stated.  Go `error` values are modelled by `Option Err` (`none` = nil).
-/

namespace dbgo

/-- Go `error` values that appear in this library: the two sentinel errors
declared by the package plus opaque collaborator errors (driver open
failures, pool failures, plugin registration failures, ...), distinguished
by a numeric code so that error identity (`==` in Go) is meaningful. -/
inductive Err where
  | invalidConfig
  | noDatabase
  | driverErr (code : Nat)
deriving DecidableEq, Repr

/-- The raw `*sql.DB` handle reachable through `gorm.DB.DB()`; only its
`PingContext` outcome matters to this layer. -/
structure SqlDB where
  pingResult : Option Err
deriving DecidableEq, Repr

/-- Whether a `gorm.DB`'s underlying `Statement.ConnPool` is a plain pool
connection or a `gorm.TxCommitter` (an open transaction). -/
inductive ConnPool where
  | plain
  | tx
deriving DecidableEq, Repr

/-- A `*gorm.DB` handle: its connection-pool kind (plain vs transaction)
and the result of calling `.DB()` on it (`Except.error e` models a non-nil
error, `Except.ok none` a nil `*sql.DB` with nil error). -/
structure GormDB where
  pool : ConnPool
  dbResult : Except Err (Option SqlDB)
deriving Repr

/-- `Config` from `config.go`.  Pool knobs are optional (`nil` pointer vs
set value); `TracingAnalyticsRate` is a `*float64` and `TracingErrorCheck`
a Go function value, both irrelevant to control flow here but kept for
faithfulness.  Field defaults are the Go zero value of each field. -/
structure Config where
  PrimaryDSN : String := ""
  ReplicasDSN : List String := []
  MaxOpenConns : Option Int := none
  MaxIdleConns : Option Int := none
  ConnMaxLifetime : Option Int := none
  ConnMaxIdleTime : Option Int := none
  EnableTracing : Bool := false
  TracingServiceName : String := ""
  TracingAnalyticsRate : Option Float := none
  TracingErrorCheck : Option (Err → Bool) := none

/-- `Config.Validate`: fails exactly when `PrimaryDSN` is empty,
returning `ErrInvalidConfig`. -/
def Config.Validate (c : Config) : Option Err :=
  if c.PrimaryDSN = "" then some Err.invalidConfig else none

/-- `DBConn` from `db.go`: the realized handle and the error of the last
attempt (`Instance *gorm.DB; Error error`). -/
structure DBConn where
  Instance : Option GormDB
  Error : Option Err
deriving Repr

/-- The process-wide singleton state of `db.go`: `conn`, `activeConfig`,
and the `sync.Once` gate `dbConnOnce` (modelled by `onceDone`).
`initCount` is a ghost observation counting executions of the once-body;
it is not program state and is never read by the embedded code. -/
structure SingletonState where
  conn : DBConn
  activeConfig : Config
  onceDone : Bool
  initCount : Nat

/-- The package state at process start: zero-value `conn` and
`activeConfig`, an un-fired gate. -/
def freshState : SingletonState :=
  { conn := ⟨none, none⟩, activeConfig := {}, onceDone := false, initCount := 0 }

/-- `GetActiveConfig` from `db.go`: the stored configuration, read under
the lock. -/
def GetActiveConfig (st : SingletonState) : Config :=
  st.activeConfig

/-- Results of the external collaborators used while establishing the
connection: `gorm.Open` per DSN, `applyPoolConfig`, registration of the
`dbresolver` plugin, and the `db.Use(plugin)` call inside
`EnableTracing`. -/
structure DriverEnv where
  openResult : String → Except Err GormDB
  poolResult : Option Err
  resolverResult : Option Err
  tracingUseResult : Option Err

/-- `EnableTracing` from the tracing file: a no-op when tracing is
disabled; otherwise builds the Datadog plugin and calls `db.Use(plugin)`.
On a `Use` failure it returns `(nil, err)` — the nil first component is
exactly what the source's `return nil, err` line produces. -/
def EnableTracing (env : DriverEnv) (db : GormDB) (cfg : Config) :
    Option GormDB × Option Err :=
  if !cfg.EnableTracing then (some db, none)
  else
    match env.tracingUseResult with
    | some e => (none, some e)
    | none => (some db, none)

/-- The body of `dbConnOnce.Do` in `getConnection` (`db.go`), minus the
`activeConfig` store that precedes it: open the primary, apply pool
config, optionally register the replica resolver, optionally apply
tracing, and produce the `(Instance, Error)` pair that every exit path
stores into `conn`.  Note that on the tracing branch the source executes
`db, err = EnableTracing(db, config)` and stores that (possibly nil)
`db`. -/
def onceBody (env : DriverEnv) (config : Config) : DBConn :=
  match env.openResult config.PrimaryDSN with
  | Except.error e => ⟨none, some e⟩
  | Except.ok db =>
    match env.poolResult with
    | some e => ⟨some db, some e⟩
    | none =>
      if config.ReplicasDSN.isEmpty then
        if config.EnableTracing then
          let r := EnableTracing env db config
          ⟨r.1, r.2⟩
        else ⟨some db, none⟩
      else
        match env.resolverResult with
        | some e => ⟨some db, some e⟩
        | none =>
          if config.EnableTracing then
            let r := EnableTracing env db config
            ⟨r.1, r.2⟩
          else ⟨some db, none⟩

/-- `getConnection` from `db.go`: validate (returning a nil handle and the
error without touching the gate on failure); otherwise run the once-body if the
gate has not fired (recording `activeConfig` first, as the source does at
the top of the `Do` body), and return a snapshot of `conn` taken after
the gate. -/
def getConnection (env : DriverEnv) (st : SingletonState) (config : Config) :
    SingletonState × DBConn :=
  match config.Validate with
  | some e => (st, ⟨none, some e⟩)
  | none =>
    let st' :=
      if st.onceDone then st
      else { st with
              onceDone := true
              initCount := st.initCount + 1
              activeConfig := config
              conn := onceBody env config }
    (st', st'.conn)

/-- `ResetConnection` from `db.go`: best-effort-close the resource
(failures swallowed — not observable here), clear `conn` and
`activeConfig` to their zero values, re-arm the gate.  The ghost
`initCount` is an observation across the process lifetime and is kept. -/
def ResetConnection (st : SingletonState) : SingletonState :=
  { conn := ⟨none, none⟩
    activeConfig := {}
    onceDone := false
    initCount := st.initCount }

/-- A `context.Context`: the value chain is modelled by the (latest)
binding under the private `dbContextKey` plus an association list for all
other keys.  `dbEntry = none` models "no value stored under the key";
`dbEntry = some none` models a stored typed-nil `*gorm.DB` (the type
assertion in `GetFromContext` succeeds on it). -/
structure Context where
  entries : List (Nat × Nat) := []
  dbEntry : Option (Option GormDB) := none

/-- `SetFromContext`: `context.WithValue(ctx, dbContextKey, db)` — a new
context with the handle bound under the private key; everything else is
carried over unchanged. -/
def SetFromContext (ctx : Context) (db : Option GormDB) : Context :=
  { ctx with dbEntry := some db }

/-- Lookup of an arbitrary non-db key in a context (the `ctx.Value` chain
for keys other than `dbContextKey`). -/
def lookupOther (ctx : Context) (k : Nat) : Option Nat :=
  ctx.entries.lookup k

/-- `GetFromContext`: if the type assertion on the stored value succeeds
(a `*gorm.DB` is stored under the key, even a typed-nil one), return it;
otherwise fall back to the singleton's `conn.Instance` when non-nil;
otherwise log a warning and return nil. -/
def GetFromContext (st : SingletonState) (ctx : Context) : Option GormDB :=
  match ctx.dbEntry with
  | some db => db
  | none =>
    match st.conn.Instance with
    | some inst => some inst
    | none => none

/-- `Ping` from `db.go`: resolve the handle (context or singleton),
return `ErrNoDatabase` when none; then obtain the raw `*sql.DB` and ping
it, with `ErrNoDatabase` again when the raw handle is nil. -/
def Ping (st : SingletonState) (ctx : Context) : Option Err :=
  match GetFromContext st ctx with
  | none => some Err.noDatabase
  | some db =>
    match db.dbResult with
    | Except.error e => some e
    | Except.ok none => some Err.noDatabase
    | Except.ok (some sqlDB) => sqlDB.pingResult

/-- `isTransaction` from the transaction file: the handle's
`Statement.ConnPool` is a `gorm.TxCommitter`. -/
def isTransaction (db : GormDB) : Bool :=
  match db.pool with
  | ConnPool.tx => true
  | ConnPool.plain => false

/-- Resource-level events issued against the underlying driver by
`WithTransaction`. -/
inductive Event where
  | beginTx
  | commitTx
  | rollbackTx
deriving DecidableEq, Repr

/-- The outcome of a unit of work or of `WithTransaction` itself:
a nil error, a non-nil error, or a panic carrying a value. -/
inductive Outcome where
  | ok
  | err (e : Err)
  | panics (p : Nat)
deriving DecidableEq, Repr

/-- Driver outcomes for the transactional calls made by
`WithTransaction`: `Begin`, `Commit`, `Rollback`. -/
structure TxEnv where
  beginResult : Option Err
  commitResult : Option Err
  rollbackResult : Option Err

/-- The handle produced by
`dbInstance.Session(...).Clauses(dbresolver.Write).Begin()`: a derived
handle whose connection pool is now a transaction. -/
def beginHandle (db : GormDB) : GormDB :=
  { db with pool := ConnPool.tx }

/-- `WithTransaction` from the transaction file.  A unit of work is a
function from a context to the pair (resource events it issued, its
outcome); `withTransaction` likewise returns the full event trace and the
overall outcome.  Control flow follows the source exactly: resolve the
handle (`ErrNoDatabase` when nil); reuse an already-transactional handle
by calling `fn ctx` and returning its result verbatim; otherwise `Begin`
(returning its error on failure), run `fn` on a context holding the
transactional handle, then — in the deferred block — roll back and
re-raise on panic (a rollback failure only being logged), roll back on a
non-nil error (again only logging a rollback failure), or commit and
surface the commit's error.  The tracing span started in the source when
the active config enables tracing issues no resource events and does not
alter the returned error, so it has no observable effect in this model. -/
def withTransaction (st : SingletonState) (env : TxEnv) (ctx : Context)
    (fn : Context → List Event × Outcome) : List Event × Outcome :=
  match GetFromContext st ctx with
  | none => ([], Outcome.err Err.noDatabase)
  | some dbInstance =>
    if isTransaction dbInstance then fn ctx
    else
      match env.beginResult with
      | some e => ([Event.beginTx], Outcome.err e)
      | none =>
        let db := beginHandle dbInstance
        let r := fn (SetFromContext ctx (some db))
        match r.2 with
        | Outcome.panics p =>
          (Event.beginTx :: r.1 ++ [Event.rollbackTx], Outcome.panics p)
        | Outcome.err e =>
          (Event.beginTx :: r.1 ++ [Event.rollbackTx], Outcome.err e)
        | Outcome.ok =>
          match env.commitResult with
          | some ce => (Event.beginTx :: r.1 ++ [Event.commitTx], Outcome.err ce)
          | none => (Event.beginTx :: r.1 ++ [Event.commitTx], Outcome.ok)

/-- `n`-fold nesting of `WithTransaction` around a base unit of work:
`nest 0 base = base`, and `nest (n+1) base` is a unit of work that calls
`WithTransaction` on `nest n base`. -/
def nest (st : SingletonState) (env : TxEnv)
    (base : Context → List Event × Outcome) :
    Nat → Context → List Event × Outcome
  | 0, ctx => base ctx
  | n + 1, ctx => withTransaction st env ctx (nest st env base n)

/-- Run a sequence of `GetConnection` calls, threading the singleton
state and collecting each returned `DBConn` snapshot. -/
def runCalls (env : DriverEnv) :
    SingletonState → List Config → SingletonState × List DBConn
  | st, [] => (st, [])
  | st, c :: cs =>
    let r := getConnection env st c
    let rest := runCalls env r.1 cs
    (rest.1, r.2 :: rest.2)

/-! Concrete fixtures used to evaluate the development on closed inputs. -/

/-- A plain (non-transactional) handle whose raw `*sql.DB` pings fine. -/
def wPlain : GormDB :=
  { pool := ConnPool.plain, dbResult := Except.ok (some ⟨none⟩) }

/-- A second, distinct plain handle (used to distinguish context-attached
handles from the singleton's). -/
def wOther : GormDB :=
  { pool := ConnPool.plain, dbResult := Except.ok none }

/-- A singleton state whose gate has fired and which holds `wPlain`. -/
def wState : SingletonState :=
  { conn := ⟨some wPlain, none⟩, activeConfig := {}, onceDone := true, initCount := 1 }

/-- A transaction environment where Begin and Commit succeed but Rollback
fails (so rollback-failure logging paths are exercised). -/
def wTxEnv : TxEnv :=
  { beginResult := none, commitResult := none, rollbackResult := some (Err.driverErr 9) }

/-- A unit of work that issues no resource events and returns nil. -/
def okFn : Context → List Event × Outcome := fun _ => ([], Outcome.ok)

/-- A unit of work that issues no resource events and returns a sentinel
business error. -/
def errFn : Context → List Event × Outcome := fun _ => ([], Outcome.err (Err.driverErr 5))

/-- A unit of work that panics with value 42. -/
def panicFn : Context → List Event × Outcome := fun _ => ([], Outcome.panics 42)

/-- A valid configuration (non-empty primary DSN, no replicas, no tracing). -/
def cfgValid : Config := { PrimaryDSN := "postgres://primary" }

/-- A driver environment where every step succeeds. -/
def wEnvOk : DriverEnv :=
  { openResult := fun _ => Except.ok wPlain, poolResult := none,
    resolverResult := none, tracingUseResult := none }

/-- A driver environment where `gorm.Open` itself fails. -/
def wEnvOpenFail : DriverEnv :=
  { openResult := fun _ => Except.error (Err.driverErr 3), poolResult := none,
    resolverResult := none, tracingUseResult := none }

/-- A valid configuration with tracing enabled. -/
def trConfig : Config := { PrimaryDSN := "postgres://primary", EnableTracing := true }

/-- A driver environment where the connection opens fine but installing
the tracing plugin (`db.Use(plugin)` inside `EnableTracing`) fails. -/
def trEnv : DriverEnv :=
  { openResult := fun _ => Except.ok wPlain, poolResult := none,
    resolverResult := none, tracingUseResult := some (Err.driverErr 7) }

/-- The singleton state right after the first successful arming of the
gate by a call with configuration `c` under environment `env`. -/
def stAfterFirst (env : DriverEnv) (c : Config) : SingletonState :=
  { conn := onceBody env c, activeConfig := c, onceDone := true, initCount := 1 }

/-! Helper lemmas shared by the claim theorems. -/

/-- Reuse path of `WithTransaction`: an already-transactional resolved
handle makes it call the unit of work directly on the unchanged context. -/
theorem withTransaction_reuse_eq (st : SingletonState) (env : TxEnv) (ctx : Context)
    (fn : Context → List Event × Outcome) (h : GormDB)
    (hget : GetFromContext st ctx = some h) (htx : isTransaction h = true) :
    withTransaction st env ctx fn = fn ctx := by
  unfold withTransaction
  rw [hget]
  simp [htx]

/-- Any depth of nesting over an already-transactional context collapses
to the base unit of work. -/
theorem nest_reuse_eq (st : SingletonState) (env : TxEnv)
    (base : Context → List Event × Outcome) (n : Nat) (ctx : Context) (h : GormDB)
    (hget : GetFromContext st ctx = some h) (htx : isTransaction h = true) :
    nest st env base n ctx = base ctx := by
  induction n with
  | zero => rfl
  | succ n ih =>
    show withTransaction st env ctx (nest st env base n) = base ctx
    rw [withTransaction_reuse_eq st env ctx _ h hget htx, ih]

/-- New-transaction path of `WithTransaction`, fully unfolded, when the
resolved handle is not transactional and `Begin` succeeds. -/
theorem withTransaction_new_eq (st : SingletonState) (env : TxEnv) (ctx : Context)
    (fn : Context → List Event × Outcome) (h : GormDB)
    (hget : GetFromContext st ctx = some h) (hntx : isTransaction h = false)
    (hb : env.beginResult = none) :
    withTransaction st env ctx fn =
      (let r := fn (SetFromContext ctx (some (beginHandle h)))
       match r.2 with
       | Outcome.panics p =>
         (Event.beginTx :: r.1 ++ [Event.rollbackTx], Outcome.panics p)
       | Outcome.err e =>
         (Event.beginTx :: r.1 ++ [Event.rollbackTx], Outcome.err e)
       | Outcome.ok =>
         match env.commitResult with
         | some ce => (Event.beginTx :: r.1 ++ [Event.commitTx], Outcome.err ce)
         | none => (Event.beginTx :: r.1 ++ [Event.commitTx], Outcome.ok)) := by
  unfold withTransaction
  rw [hget, hb]
  simp [hntx]

/-- A `GetConnection` call with a valid configuration after the gate has
fired is a pure snapshot read: the state is unchanged and the stored
`conn` is returned. -/
theorem getConnection_done_eq (env : DriverEnv) (st : SingletonState) (c : Config)
    (hdone : st.onceDone = true) (hc : c.Validate = none) :
    getConnection env st c = (st, st.conn) := by
  simp [getConnection, hc, hdone]

/-- The first `GetConnection` call with a valid configuration on an
un-fired gate runs the once-body, records the configuration, bumps the
ghost counter, and returns the freshly stored snapshot. -/
theorem getConnection_fresh_eq (env : DriverEnv) (st : SingletonState) (c : Config)
    (hfresh : st.onceDone = false) (hc : c.Validate = none) :
    getConnection env st c =
      ({ st with onceDone := true, initCount := st.initCount + 1,
                 activeConfig := c, conn := onceBody env c },
       onceBody env c) := by
  simp [getConnection, hc, hfresh]

/-- After the gate has fired, any sequence of valid calls leaves the state
untouched and every call returns the stored snapshot. -/
theorem runCalls_done_eq (env : DriverEnv) (st : SingletonState) (cs : List Config)
    (hdone : st.onceDone = true) (hcs : ∀ c ∈ cs, c.Validate = none) :
    runCalls env st cs = (st, cs.map fun _ => st.conn) := by
  induction cs with
  | nil => rfl
  | cons c cs ih =>
    have hc := hcs c (List.mem_cons_self c cs)
    have hrest : ∀ c' ∈ cs, c'.Validate = none :=
      fun c' hm => hcs c' (List.mem_cons_of_mem c hm)
    simp [runCalls, getConnection_done_eq env st c hdone hc, ih hrest]

/-! Claim theorems. -/

/-- Claim C1 (evaluation at the failing input): with a valid tracing-enabled
configuration and a driver environment where the connection opens
successfully but installing the tracing plugin fails, `getConnection`
stores and returns a `DBConn` whose `Instance` is nil alongside the
tracing error — because `EnableTracing` returns a nil handle on failure
and `getConnection` stores that reassigned handle.  This contradicts the
claim (and the code's own inline comment) that the handle remains stored
and usable alongside the tracing error. -/
theorem tracingFailure_stores_nil_instance :
    (getConnection trEnv freshState trConfig).2.Instance = none ∧
    (getConnection trEnv freshState trConfig).2.Error = some (Err.driverErr 7) :=
  ⟨rfl, rfl⟩

/-- Claim C5: with an empty primary target `GetConnection` returns a nil
handle with `ErrInvalidConfig` and leaves the singleton state (the
one-shot gate included) completely untouched, so a subsequent call with a
valid configuration on that same state still executes the once-body
(ghost counter bumps by one) and can succeed (non-nil handle, nil
error). -/
theorem getConnection_invalid_config_no_gate
    (env : DriverEnv) (st : SingletonState) (c1 c2 : Config) (db : GormDB)
    (hfresh : st.onceDone = false)
    (hc1 : c1.PrimaryDSN = "")
    (hc2 : c2.Validate = none)
    (hopen : env.openResult c2.PrimaryDSN = Except.ok db)
    (hpool : env.poolResult = none)
    (hrep : c2.ReplicasDSN = [])
    (htr : c2.EnableTracing = false) :
    getConnection env st c1 = (st, ⟨none, some Err.invalidConfig⟩) ∧
    (getConnection env st c2).2 = ⟨some db, none⟩ ∧
    (getConnection env st c2).1.initCount = st.initCount + 1 := by
  refine ⟨?_, ?_, ?_⟩
  · simp [getConnection, Config.Validate, hc1]
  · simp [getConnection, hc2, hfresh, onceBody, hopen, hpool, hrep, htr]
  · simp [getConnection, hc2, hfresh]

/-- Claim C5 witness: the generic theorem evaluated on the concrete empty
configuration, the concrete valid configuration `cfgValid`, and the
all-success driver environment `wEnvOk`, starting from the fresh process
state. -/
theorem getConnection_invalid_config_no_gate_witness :
    getConnection wEnvOk freshState {} = (freshState, ⟨none, some Err.invalidConfig⟩) ∧
    (getConnection wEnvOk freshState cfgValid).2 = ⟨some wPlain, none⟩ ∧
    (getConnection wEnvOk freshState cfgValid).1.initCount = freshState.initCount + 1 :=
  getConnection_invalid_config_no_gate wEnvOk freshState {} cfgValid wPlain
    rfl rfl (by decide) rfl rfl rfl rfl

/-- Claim C8: when no handle is resolvable (neither attached to the
context nor held by the singleton), `WithTransaction` returns the
`ErrNoDatabase` sentinel having issued no resource events and without
running the unit of work (the result is the same for every unit of work),
and `Ping` returns the same sentinel. -/
theorem no_database_guard (st : SingletonState) (ctx : Context) (env : TxEnv)
    (fn : Context → List Event × Outcome)
    (hnone : GetFromContext st ctx = none) :
    withTransaction st env ctx fn = ([], Outcome.err Err.noDatabase) ∧
    Ping st ctx = some Err.noDatabase := by
  constructor
  · unfold withTransaction
    rw [hnone]
  · unfold Ping
    rw [hnone]

/-- Claim C8 witness: on the fresh process state and an empty context
even a unit of work that would commit work and succeed is never run —
`WithTransaction` and `Ping` both return the no-database sentinel. -/
theorem no_database_guard_witness :
    withTransaction freshState wTxEnv {} okFn = ([], Outcome.err Err.noDatabase) ∧
    Ping freshState {} = some Err.noDatabase :=
  no_database_guard freshState {} wTxEnv okFn rfl

/-- Claim C9: storing a nil handle with `SetFromContext` makes the stored
typed-nil value satisfy the type assertion in `GetFromContext`, which
therefore returns nil without falling back to the singleton — whatever
handle the singleton holds — and `WithTransaction` on such a context
returns `ErrNoDatabase` for every unit of work and environment. -/
theorem typed_nil_context_shadows_singleton
    (st : SingletonState) (env : TxEnv) (ctx : Context)
    (fn : Context → List Event × Outcome) :
    GetFromContext st (SetFromContext ctx none) = none ∧
    withTransaction st env (SetFromContext ctx none) fn =
      ([], Outcome.err Err.noDatabase) :=
  ⟨rfl, rfl⟩

/-- Claim C10: when the first valid `GetConnection` call reaches the gate
and the driver open fails, the attempted configuration is still recorded —
`GetActiveConfig` afterwards returns it, not the zero-value `Config` —
while the stored handle is nil and the open error is surfaced. -/
theorem active_config_recorded_before_open
    (env : DriverEnv) (st : SingletonState) (c : Config) (e : Err)
    (hfresh : st.onceDone = false) (hc : c.Validate = none)
    (hopen : env.openResult c.PrimaryDSN = Except.error e) :
    GetActiveConfig (getConnection env st c).1 = c ∧
    (getConnection env st c).2.Instance = none ∧
    (getConnection env st c).2.Error = some e := by
  refine ⟨?_, ?_, ?_⟩ <;>
    simp [getConnection, hc, hfresh, onceBody, hopen, GetActiveConfig]

/-- Claim C10 witness: the theorem evaluated on the fresh state, the
concrete valid configuration and the environment whose open fails. -/
theorem active_config_recorded_before_open_witness :
    GetActiveConfig (getConnection wEnvOpenFail freshState cfgValid).1 = cfgValid ∧
    (getConnection wEnvOpenFail freshState cfgValid).2.Instance = none ∧
    (getConnection wEnvOpenFail freshState cfgValid).2.Error = some (Err.driverErr 3) :=
  active_config_recorded_before_open wEnvOpenFail freshState cfgValid
    (Err.driverErr 3) rfl (by decide) rfl

/-- Claim C7: `GetFromContext` returns the context-attached handle when
one is attached (for every singleton state, in particular one holding a
different handle), returns exactly the singleton's current handle when the
context carries none (hence nil when neither exists); and `SetFromContext`
builds a new context holding the handle under the private key while
carrying every other association over unchanged. -/
theorem context_precedence_and_set_immutability
    (st : SingletonState) (hdb : GormDB) (cSet cNone ctx : Context) (k : Nat)
    (hSet : cSet.dbEntry = some (some hdb))
    (hNone : cNone.dbEntry = none) :
    GetFromContext st cSet = some hdb ∧
    GetFromContext st cNone = st.conn.Instance ∧
    (SetFromContext ctx (some hdb)).dbEntry = some (some hdb) ∧
    (SetFromContext ctx (some hdb)).entries = ctx.entries ∧
    lookupOther (SetFromContext ctx (some hdb)) k = lookupOther ctx k := by
  refine ⟨?_, ?_, rfl, rfl, rfl⟩
  · unfold GetFromContext
    rw [hSet]
  · unfold GetFromContext
    rw [hNone]
    cases st.conn.Instance <;> rfl

/-- Claim C7 witness: a singleton holding `wPlain` while the context
carries the distinct handle `wOther` — the context wins; an empty context
falls back to the singleton handle; `SetFromContext` preserves an
unrelated key association. -/
theorem context_precedence_and_set_immutability_witness :
    GetFromContext wState { entries := [(1, 2)], dbEntry := some (some wOther) } = some wOther ∧
    GetFromContext wState {} = wState.conn.Instance ∧
    (SetFromContext { entries := [(3, 4)] } (some wOther)).dbEntry = some (some wOther) ∧
    (SetFromContext { entries := [(3, 4)] } (some wOther)).entries = Context.entries { entries := [(3, 4)] } ∧
    lookupOther (SetFromContext { entries := [(3, 4)] } (some wOther)) 3 =
      lookupOther { entries := [(3, 4)] } 3 :=
  context_precedence_and_set_immutability wState wOther
    { entries := [(1, 2)], dbEntry := some (some wOther) } {} { entries := [(3, 4)] } 3 rfl rfl

/-- Claim C3: a unit of work that panics inside a new transaction opened
by `WithTransaction` causes exactly one rollback attempt and nothing else
at the resource level after the begin, the original panic value
propagates unchanged, and `Commit` is never issued — for every
environment, in particular one whose `Rollback` fails (the failure is
only logged, never thrown). -/
theorem withTransaction_panic_rollback_repanic
    (st : SingletonState) (env : TxEnv) (ctx : Context)
    (fn : Context → List Event × Outcome) (h : GormDB) (p : Nat)
    (hget : GetFromContext st ctx = some h)
    (hntx : isTransaction h = false)
    (hb : env.beginResult = none)
    (hfn : fn (SetFromContext ctx (some (beginHandle h))) = ([], Outcome.panics p)) :
    withTransaction st env ctx fn =
      ([Event.beginTx, Event.rollbackTx], Outcome.panics p) := by
  rw [withTransaction_new_eq st env ctx fn h hget hntx hb]
  simp [hfn]

/-- Claim C3 witness: the panicking unit of work run against the armed
singleton state under an environment whose `Rollback` fails — one begin,
one rollback attempt, no commit, panic value 42 re-raised unchanged. -/
theorem withTransaction_panic_rollback_repanic_witness :
    withTransaction wState wTxEnv {} panicFn =
      ([Event.beginTx, Event.rollbackTx], Outcome.panics 42) :=
  withTransaction_panic_rollback_repanic wState wTxEnv {} panicFn wPlain 42
    rfl rfl rfl rfl

/-- Claim C4: in a new transaction, a unit of work returning a non-nil
error E makes `WithTransaction` roll back and return exactly E (for every
environment — a failing rollback never replaces E), while a unit of work
returning nil makes it commit, the commit's own error (if any) becoming
the overall result. -/
theorem withTransaction_error_passthrough_commit
    (st : SingletonState) (env : TxEnv) (ctx : Context) (h : GormDB)
    (fnErr fnOk : Context → List Event × Outcome)
    (e : Err) (evE evO : List Event)
    (hget : GetFromContext st ctx = some h)
    (hntx : isTransaction h = false)
    (hb : env.beginResult = none)
    (hfnE : fnErr (SetFromContext ctx (some (beginHandle h))) = (evE, Outcome.err e))
    (hfnO : fnOk (SetFromContext ctx (some (beginHandle h))) = (evO, Outcome.ok)) :
    withTransaction st env ctx fnErr =
      (Event.beginTx :: evE ++ [Event.rollbackTx], Outcome.err e) ∧
    withTransaction st env ctx fnOk =
      (Event.beginTx :: evO ++ [Event.commitTx],
       match env.commitResult with
       | some ce => Outcome.err ce
       | none => Outcome.ok) := by
  constructor
  · rw [withTransaction_new_eq st env ctx fnErr h hget hntx hb]
    simp [hfnE]
  · rw [withTransaction_new_eq st env ctx fnOk h hget hntx hb]
    cases hce : env.commitResult <;> simp [hfnO, hce]

/-- Claim C4 witness: against the armed singleton state, the sentinel
error of `errFn` comes back exactly (with one begin and one rollback)
even though the environment's rollback fails, and `okFn` leads to one
begin and one commit with a nil overall result. -/
theorem withTransaction_error_passthrough_commit_witness :
    withTransaction wState wTxEnv {} errFn =
      ([Event.beginTx, Event.rollbackTx], Outcome.err (Err.driverErr 5)) ∧
    withTransaction wState wTxEnv {} okFn =
      ([Event.beginTx, Event.commitTx], Outcome.ok) :=
  withTransaction_error_passthrough_commit wState wTxEnv {} wPlain errFn okFn
    (Err.driverErr 5) [] [] rfl rfl rfl rfl rfl

/-- Claim C2: a `WithTransaction` call on a context whose resolved handle
is already transactional invokes the unit of work directly on the
unchanged context and returns its result verbatim (no Begin, Commit or
Rollback issued); consequently an outer `WithTransaction` wrapping any
depth of nested `WithTransaction` calls around a base unit of work (one
issuing no resource events of its own) produces at the resource level
exactly the trace Begin-then-Commit or exactly Begin-then-Rollback. -/
theorem withTransaction_reuse_and_single_begin_commit
    (st : SingletonState) (env : TxEnv) (ctx ctxT : Context)
    (fn base : Context → List Event × Outcome) (h hT : GormDB) (n : Nat)
    (hgetT : GetFromContext st ctxT = some hT)
    (htxT : isTransaction hT = true)
    (hget : GetFromContext st ctx = some h)
    (hntx : isTransaction h = false)
    (hb : env.beginResult = none)
    (hbase : ∀ c, (base c).1 = []) :
    withTransaction st env ctxT fn = fn ctxT ∧
    ((withTransaction st env ctx (nest st env base n)).1 =
        [Event.beginTx, Event.commitTx] ∨
     (withTransaction st env ctx (nest st env base n)).1 =
        [Event.beginTx, Event.rollbackTx]) := by
  refine ⟨withTransaction_reuse_eq st env ctxT fn hT hgetT htxT, ?_⟩
  have hctx' : GetFromContext st (SetFromContext ctx (some (beginHandle h))) =
      some (beginHandle h) := rfl
  have htx' : isTransaction (beginHandle h) = true := rfl
  rw [withTransaction_new_eq st env ctx (nest st env base n) h hget hntx hb]
  rw [nest_reuse_eq st env base n _ (beginHandle h) hctx' htx']
  have h1 := hbase (SetFromContext ctx (some (beginHandle h)))
  rcases hout : (base (SetFromContext ctx (some (beginHandle h)))).2 with _ | e | p
  · left
    cases hce : env.commitResult <;> simp [hout, hce, h1]
  · right
    simp [hout, h1]
  · right
    simp [hout, h1]

/-- Claim C2 witness: reuse evaluated on a context carrying the
transactional handle derived from `wPlain` (result of `okFn` returned
verbatim), and a doubly nested tower over `okFn` starting from a
non-transactional context, whose resource trace is exactly one begin
followed by one commit. -/
theorem withTransaction_reuse_and_single_begin_commit_witness :
    withTransaction wState wTxEnv (SetFromContext {} (some (beginHandle wPlain))) okFn =
      okFn (SetFromContext {} (some (beginHandle wPlain))) ∧
    ((withTransaction wState wTxEnv {} (nest wState wTxEnv okFn 2)).1 =
        [Event.beginTx, Event.commitTx] ∨
     (withTransaction wState wTxEnv {} (nest wState wTxEnv okFn 2)).1 =
        [Event.beginTx, Event.rollbackTx]) :=
  withTransaction_reuse_and_single_begin_commit wState wTxEnv {}
    (SetFromContext {} (some (beginHandle wPlain))) okFn okFn wPlain
    (beginHandle wPlain) 2 rfl rfl rfl rfl rfl (fun _ => rfl)

/-- Claim C6: starting from the fresh process state, any sequence of
`GetConnection` calls with valid configurations (here the first call's
configuration followed by an arbitrary list of further valid
configurations, possibly different) executes the once-body exactly once —
the ghost counter ends at 1 — and every call returns the identical
snapshot returned by the first call; after `ResetConnection` the gate is
re-armed, and the next valid call executes the once-body exactly once
more (counter 2). -/
theorem getConnection_once_and_reset
    (env : DriverEnv) (c c2 : Config) (cs : List Config)
    (hc : c.Validate = none)
    (hcs : ∀ c' ∈ cs, c'.Validate = none)
    (hc2 : c2.Validate = none) :
    (runCalls env freshState (c :: cs)).1.initCount = 1 ∧
    (runCalls env freshState (c :: cs)).2 =
      List.replicate (cs.length + 1) (getConnection env freshState c).2 ∧
    (getConnection env (ResetConnection (runCalls env freshState (c :: cs)).1) c2).1.initCount
      = 2 := by
  have hfirst : getConnection env freshState c = (stAfterFirst env c, onceBody env c) :=
    getConnection_fresh_eq env freshState c rfl hc
  have hrest := runCalls_done_eq env (stAfterFirst env c) cs rfl hcs
  have hrun : runCalls env freshState (c :: cs) =
      (stAfterFirst env c, onceBody env c :: cs.map fun _ => onceBody env c) := by
    simp only [runCalls]
    rw [hfirst, hrest]
    rfl
  refine ⟨?_, ?_, ?_⟩
  · rw [hrun]
    rfl
  · rw [hrun, hfirst]
    show onceBody env c :: (cs.map fun _ => onceBody env c)
        = List.replicate (cs.length + 1) (onceBody env c)
    rw [List.map_const']
    rfl
  · rw [hrun]
    have hreset : ResetConnection (stAfterFirst env c) =
        { conn := ⟨none, none⟩, activeConfig := {}, onceDone := false, initCount := 1 } := rfl
    rw [hreset, getConnection_fresh_eq env _ c2 rfl hc2]

/-- Claim C6 witness: two calls with the valid configuration `cfgValid`
under the all-success environment — the once-body runs once, both calls
return the first call's snapshot, and after a reset the next valid call
runs the once-body exactly once more. -/
theorem getConnection_once_and_reset_witness :
    (runCalls wEnvOk freshState [cfgValid, cfgValid]).1.initCount = 1 ∧
    (runCalls wEnvOk freshState [cfgValid, cfgValid]).2 =
      List.replicate 2 (getConnection wEnvOk freshState cfgValid).2 ∧
    (getConnection wEnvOk
        (ResetConnection (runCalls wEnvOk freshState [cfgValid, cfgValid]).1)
        cfgValid).1.initCount = 2 :=
  getConnection_once_and_reset wEnvOk cfgValid cfgValid [cfgValid] (by decide)
    (by intro c' hm; rw [List.mem_singleton.mp hm]; decide) (by decide)

end dbgo
